import Mathlib

/-!
# Verification of the statul-backend session/credential subsystem and mapfind router

Shallow embedding of `src/service/credential.py` and `src/router/mapfind.py`.

* The JWT codec (`jwt.encode` / `jwt.decode`, an external library; spec section 4.1)
  is modelled as a perfect MAC over a concrete byte serialization of the claims.
* The redis commands used by the code (`hset`, `hdel`, `hexists`, `expire`) are
  modelled over an explicit store state with top-level keys, hash fields and
  per-key TTLs, following redis semantics: `EXPIRE` applies to a *top-level* key
  and is a no-op when that key does not exist, while hash *fields* carry no TTL.
* The user directory (`database/user.py`, not included in the sources) is
  modelled from the spec as a read-by-id lookup returning a record or not-found.
-/

namespace Statul

/-! ## Token codec (model of the JWT layer used by `credential.py`) -/

/-- Claims payload of a token: the `"sub"` entry (may be absent) and the
optional `"exp"` entry, as used by `create_access_token` / `get_current_user`. -/
structure Claims where
  sub : Option String
  exp : Option Nat
  deriving DecidableEq, Repr

/-- Modelled from the spec: the JWT wire format, as an injective serialization
of the claims dict into payload bytes (`jwt.encode` serializes the payload;
the exact byte format is immaterial, only its injectivity is used). -/
def serializeClaims (c : Claims) : List Nat :=
  (match c.sub with
   | none => [0]
   | some s => [1, s.length] ++ s.data.map Char.toNat) ++
  (match c.exp with
   | none => [0]
   | some e => [1, e])

/-- Reads the `"sub"` part of a payload, returning it with the remaining bytes. -/
def readSub : List Nat → Option (Option String × List Nat)
  | 0 :: rest => some (none, rest)
  | 1 :: n :: rest =>
      if n ≤ rest.length then
        some (some (String.mk ((rest.take n).map Char.ofNat)), rest.drop n)
      else none
  | _ => none

/-- Reads the `"exp"` part of a payload. -/
def readExp : List Nat → Option (Option Nat)
  | [0] => some none
  | [1, e] => some (some e)
  | _ => none

/-- Deserializes payload bytes back into a claims dict; `none` models a
structurally malformed payload. -/
def deserializeClaims (bs : List Nat) : Option Claims :=
  match readSub bs with
  | none => none
  | some (sub, rest) =>
    match readExp rest with
    | none => none
    | some exp => some ⟨sub, exp⟩

/-- Modelled from the spec: HMAC-SHA256 over the payload with the shared
secret, modelled as a perfect MAC (the tag determines secret and payload). -/
def mkSig (secret : String) (payload : List Nat) : String × List Nat :=
  (secret, payload)

/-- A signed token: payload bytes together with the signature.  An arbitrary
input string is a payload with an arbitrary (possibly non-matching) tag. -/
structure Token where
  payload : List Nat
  sig : String × List Nat
  deriving DecidableEq, Repr

/-- Errors of the token codec: `invalidToken` models `jwt.InvalidTokenError`
(bad signature or malformed structure) and `expired` models
`jwt.ExpiredSignatureError` (a subclass of `InvalidTokenError`). -/
inductive JwtError where
  | invalidToken
  | expired
  deriving DecidableEq, Repr

/-- `jwt.encode(payload, secret, algorithm="HS256")`. -/
def jwtEncode (secret : String) (c : Claims) : Token :=
  { payload := serializeClaims c, sig := mkSig secret (serializeClaims c) }

/-- `jwt.decode(token, secret, algorithms=["HS256"])`: verifies the signature,
parses the payload, then rejects the token when the embedded `exp` is not in
the future (PyJWT raises on `exp <= now`).  A pure function of the secret, the
current time and the token. -/
def jwtDecode (secret : String) (now : Nat) (t : Token) : Except JwtError Claims :=
  if t.sig = mkSig secret t.payload then
    match deserializeClaims t.payload with
    | none => .error .invalidToken
    | some c =>
      match c.exp with
      | some e => if e ≤ now then .error .expired else .ok c
      | none => .ok c
  else .error .invalidToken

/-- `Credential.create_access_token(data, expires_delta)`: copies the claims,
sets `exp = now + expires_delta`, and signs with the environment secret. -/
def create_access_token (data : Claims) (expires_delta : Nat) (secret : String)
    (now : Nat) : Token :=
  jwtEncode secret { data with exp := some (now + expires_delta) }

/-! ## Session store (model of the redis commands used by `credential.py`) -/

/-- A redis key: either a plain string key (such as the hash name `"user"`)
or the string of an issued token (used by `register_token` both as a hash
field and as the argument of `expire`).  Token strings are kept abstract as
`Token` values; the JWT string encoding is injective. -/
inductive RKey where
  | str : String → RKey
  | tok : Token → RKey
  deriving DecidableEq, Repr

/-- Association-list lookup (first binding wins, as in redis). -/
def lookupA {β : Type} : List (RKey × β) → RKey → Option β
  | [], _ => none
  | (k, v) :: rest, k' => if k = k' then some v else lookupA rest k'

/-- Association-list update: overwrites the binding of `k`, appending it when
absent. -/
def setA {β : Type} : List (RKey × β) → RKey → β → List (RKey × β)
  | [], k, v => [(k, v)]
  | (k', v') :: rest, k, v =>
      if k' = k then (k, v) :: rest else (k', v') :: setA rest k v

/-- Association-list removal of every binding of `k`. -/
def delA {β : Type} : List (RKey × β) → RKey → List (RKey × β)
  | [], _ => []
  | (k', v') :: rest, k =>
      if k' = k then delA rest k else (k', v') :: delA rest k

/-- State of the redis store: the hashes (a top-level key holding field/value
bindings) and the TTLs attached to top-level keys.  Only hash keys exist at
top level here, since the credential code never issues a plain `SET`. -/
structure RedisState where
  hashes : List (RKey × List (RKey × String))
  ttls : List (RKey × Nat)
  deriving DecidableEq, Repr

/-- The empty store. -/
def emptyRedis : RedisState := ⟨[], []⟩

/-- `HSET key field value`. -/
def RedisState.hset (st : RedisState) (k f : RKey) (v : String) : RedisState :=
  { st with hashes := setA st.hashes k (setA ((lookupA st.hashes k).getD []) f v) }

/-- `HDEL key field`: removes the field if present (no error when absent);
when the hash becomes empty the top-level key ceases to exist. -/
def RedisState.hdel (st : RedisState) (k f : RKey) : RedisState :=
  match lookupA st.hashes k with
  | none => st
  | some fs =>
    let fs' := delA fs f
    if fs'.isEmpty then
      { hashes := delA st.hashes k, ttls := delA st.ttls k }
    else
      { st with hashes := setA st.hashes k fs' }

/-- `HEXISTS key field`. -/
def RedisState.hexists (st : RedisState) (k f : RKey) : Bool :=
  (lookupA ((lookupA st.hashes k).getD []) f).isSome

/-- `EXISTS key` for a top-level key. -/
def RedisState.keyExists (st : RedisState) (k : RKey) : Bool :=
  (lookupA st.hashes k).isSome

/-- `EXPIRE key seconds`: sets a TTL on an existing top-level key and is a
no-op when the key does not exist (redis returns 0 and sets nothing). -/
def RedisState.expire (st : RedisState) (k : RKey) (n : Nat) : RedisState :=
  if st.keyExists k then { st with ttls := setA st.ttls k n } else st

/-- Passage of `d` seconds: every top-level key whose TTL has run out is
evicted together with its contents; the remaining TTLs count down. -/
def RedisState.elapse (st : RedisState) (d : Nat) : RedisState :=
  { hashes := st.hashes.filter (fun p =>
      match lookupA st.ttls p.1 with
      | some n => decide (d < n)
      | none => true),
    ttls := (st.ttls.filter (fun p => decide (d < p.2))).map
      (fun p => (p.1, p.2 - d)) }

/-! ## Credential service (`Credential` methods of `credential.py`) -/

/-- `Credential.register_token(expire, user_id, token)`:
`hset("user", token, user_id)` followed by `expire(token, expire)` — note the
`EXPIRE` is issued against the top-level key named by the token string, not
against the `"user"` hash that actually holds the record. -/
def register_token (st : RedisState) (expire : Nat) (user_id : String)
    (token : Token) : RedisState :=
  (st.hset (.str "user") (.tok token) user_id).expire (.tok token) expire

/-- `Credential.delete_token(token)`: `hdel("user", token)`. -/
def delete_token (st : RedisState) (token : Token) : RedisState :=
  st.hdel (.str "user") (.tok token)

/-- `Credential.is_valid_token(token)`: `hexists("user", token)`. -/
def is_valid_token (st : RedisState) (token : Token) : Bool :=
  st.hexists (.str "user") (.tok token)

/-! ## Auth gate (`get_current_user` of `credential.py`) -/

/-- Modelled from the spec: a user record of the user directory, read by id. -/
structure DbUser where
  id : String
  deriving DecidableEq, Repr

/-- Outcome of the gate: the resolved user, the single uniform
`credentials_exception` (HTTP 401, fixed detail and headers — one object is
raised on every failure path), or an uncaught store exception propagating out
of the handler (`is_valid_token` is called outside the `try` block and redis
connectivity errors are not `InvalidTokenError`). -/
inductive AuthOutcome where
  | ok : DbUser → AuthOutcome
  | unauthenticated : AuthOutcome
  | storeError : AuthOutcome
  deriving DecidableEq, Repr

/-- `get_current_user(credential, authorization)`: decode the bearer token
(`InvalidTokenError`, which includes expiry, is caught and converted to the
uniform 401), reject a payload without `"sub"`, then require the session
record in the store, then resolve the user by id; a missing user is also the
uniform 401.  `storeUp` models connectivity of the redis store: when it is
down the `is_valid_token` call raises and the exception is not caught. -/
def get_current_user (secret : String) (now : Nat) (st : RedisState)
    (storeUp : Bool) (db : String → Option DbUser) (session_token : Token) :
    AuthOutcome :=
  match jwtDecode secret now session_token with
  | .error _ => .unauthenticated
  | .ok payload =>
    match payload.sub with
    | none => .unauthenticated
    | some user_id =>
      if storeUp then
        if is_valid_token st session_token then
          match db user_id with
          | none => .unauthenticated
          | some user => .ok user
        else .unauthenticated
      else .storeError

/-- The gate including bearer extraction.  Modelled from the spec: the
framework-side extraction of the `Authorization: Bearer` header (the
`HTTPBearer` dependency configured in `credential.py`) rejects a request
without a header as unauthenticated before the handler body runs. -/
def authenticate (secret : String) (now : Nat) (st : RedisState)
    (storeUp : Bool) (db : String → Option DbUser) (header : Option Token) :
    AuthOutcome :=
  match header with
  | none => .unauthenticated
  | some tok => get_current_user secret now st storeUp db tok

/-! ## Mapfind router (`src/router/mapfind.py`) -/

/-- The `match_place_types` dict of `mapfind.py` (its four entries, in
source order). -/
def match_place_types : List (String × String) :=
  [("hospital", "hospital"), ("subway_station", "subway_station"),
   ("school", "school"), ("doctor", "hospital")]

/-- Python dict subscription `d[k]`: the first binding or `none` (a
`KeyError` escaping the handler). -/
def dictGet : List (String × String) → String → Option String
  | [], _ => none
  | (k, v) :: rest, k' => if k = k' then some v else dictGet rest k'

/-- A place object returned by the nearby lookup, with the fields named in
the request's field mask.  `primaryType` is `none` when the key is absent and
`currentOpeningHours` holds the `openNow` value when the key is present. -/
structure GPlace where
  id : String
  displayName : String
  latitude : Int
  longitude : Int
  types : List String
  primaryType : Option String
  currentOpeningHours : Option Bool
  deriving DecidableEq, Repr

/-- The response item built by `scan` for one place. -/
structure Place where
  place_id : String
  display_name : String
  type : String
  latitude : Int
  longitude : Int
  open_now : Bool
  deriving DecidableEq, Repr

/-- Python truthiness of `place_each.get("primaryType")`: the key must be
present and the string non-empty. -/
def truthyPrimary (p : GPlace) : Option String :=
  match p.primaryType with
  | some t => if t = "" then none else some t
  | none => none

/-- The key looked up in `match_place_types` for a place: its `primaryType`
when truthy, otherwise `types[0]`. -/
def effectiveKey (p : GPlace) : Option String :=
  match truthyPrimary p with
  | some t => some t
  | none => p.types.head?

/-- Builds one `Place` of the `scan` response; `none` models the unhandled
exception (`KeyError` from `match_place_types[...]`, or `IndexError` from
`types[0]`) aborting the handler. -/
def placeConv (p : GPlace) : Option Place :=
  match effectiveKey p with
  | none => none
  | some k =>
    (dictGet match_place_types k).map (fun ty =>
      { place_id := p.id
        display_name := p.displayName
        type := ty
        latitude := p.latitude
        longitude := p.longitude
        open_now := p.currentOpeningHours.getD false })

/-- The list comprehension of `scan` over `places_data["places"]`: builds the
response items in order, aborting with the unhandled exception of the first
failing element. -/
def convertPlaces : List GPlace → Option (List Place)
  | [] => some []
  | p :: ps =>
    match placeConv p with
    | none => none
    | some x =>
      match convertPlaces ps with
      | none => none
      | some xs => some (x :: xs)

/-- A row of the place database (`database/place.py` columns used by the
router: identity, display name, and the two survey counters). -/
structure PlaceRecord where
  place_id : String
  display_name : String
  safe_rating : Int
  sleep_available : Int
  deriving DecidableEq, Repr

/-- The survey request body (`interface/place.py`, modelled from its use:
`survey_type` is compared against string literals and `survey_value` is added
to `safe_rating` or assigned to `sleep_available`). -/
structure PlaceSurvey where
  survey_type : String
  survey_value : Int
  deriving DecidableEq, Repr

/-- `PlaceDatabase.get(place_id=pid)`: first row with that `place_id`;
`PlaceDatabase.exists(place_id=pid)` is `(placeGet db pid).isSome`. -/
def placeGet : List PlaceRecord → String → Option PlaceRecord
  | [], _ => none
  | r :: rest, pid => if r.place_id = pid then some r else placeGet rest pid

/-- `place_model.save()`: writes the (mutated) row back over the row it was
fetched from, identified by `place_id`. -/
def placeSave : List PlaceRecord → PlaceRecord → List PlaceRecord
  | [], m => [m]
  | r :: rest, m =>
    if r.place_id = m.place_id then m :: rest else r :: placeSave rest m

/-- Outcome of the `survey_place` handler: HTTP 200, 404 (`Place not found`)
or 400 (`Invalid survey type`). -/
inductive SurveyOutcome where
  | ok
  | notFound
  | invalidType
  deriving DecidableEq, Repr

/-- `MapFind.survey_place(place_id, survey_data)`: 404 when no row exists
(the code checks `exists` and then fetches the same row with `get`); on a
`"safe_rating"` survey the value is added to the row's `safe_rating` and
saved; on a `"sleep_available"` survey the value replaces `sleep_available`
and is saved; any other type is a 400 raised before `save()`. -/
def survey_place (db : List PlaceRecord) (place_id : String)
    (survey_data : PlaceSurvey) : SurveyOutcome × List PlaceRecord :=
  match placeGet db place_id with
  | none => (.notFound, db)
  | some place_model =>
    if survey_data.survey_type = "safe_rating" then
      (.ok, placeSave db
        { place_model with
          safe_rating := place_model.safe_rating + survey_data.survey_value })
    else if survey_data.survey_type = "sleep_available" then
      (.ok, placeSave db
        { place_model with sleep_available := survey_data.survey_value })
    else (.invalidType, db)

/-! ## Concrete instances used as witnesses -/

/-- A concrete issued token: subject `"user-42"`, embedded expiry `3600`. -/
def tDemo : Token := jwtEncode "secret-key" ⟨some "user-42", some 3600⟩

/-- The store right after registering `tDemo` for `"user-42"`. -/
def stDemo : RedisState := register_token emptyRedis 3600 "user-42" tDemo

/-- A user directory holding only `"user-42"`. -/
def dbDemo : String → Option DbUser :=
  fun s => if s = "user-42" then some ⟨"user-42"⟩ else none

/-- A nearby place of a type outside `match_place_types`. -/
def pDemo : GPlace :=
  { id := "pl-1", displayName := "Cafe", latitude := 0, longitude := 0,
    types := ["restaurant"], primaryType := some "restaurant",
    currentOpeningHours := none }

/-! ## Helper lemmas -/

theorem lookupA_setA_self {β : Type} (l : List (RKey × β)) (k : RKey) (v : β) :
    lookupA (setA l k v) k = some v := by
  induction l with
  | nil => simp [setA, lookupA]
  | cons p rest ih =>
    by_cases h : p.1 = k
    · simp [setA, h, lookupA]
    · simp [setA, h, lookupA, ih]

theorem lookupA_setA_ne {β : Type} (l : List (RKey × β)) (k k' : RKey) (v : β)
    (h : k ≠ k') : lookupA (setA l k v) k' = lookupA l k' := by
  induction l with
  | nil => simp [setA, lookupA, h]
  | cons p rest ih =>
    by_cases hp : p.1 = k
    · obtain ⟨p1, p2⟩ := p
      simp only at hp
      subst hp
      simp [setA, lookupA, h]
    · simp [setA, hp, lookupA, ih]

theorem lookupA_delA_self {β : Type} (l : List (RKey × β)) (k : RKey) :
    lookupA (delA l k) k = none := by
  induction l with
  | nil => simp [delA, lookupA]
  | cons p rest ih =>
    by_cases h : p.1 = k
    · simp [delA, h, ih]
    · simp [delA, h, lookupA, ih]

theorem delA_delA_self {β : Type} (l : List (RKey × β)) (k : RKey) :
    delA (delA l k) k = delA l k := by
  induction l with
  | nil => simp [delA]
  | cons p rest ih =>
    by_cases h : p.1 = k
    · simp [delA, h, ih]
    · simp [delA, h, ih]

theorem setA_setA_self {β : Type} (l : List (RKey × β)) (k : RKey) (v w : β) :
    setA (setA l k v) k w = setA l k w := by
  induction l with
  | nil => simp [setA]
  | cons p rest ih =>
    by_cases h : p.1 = k
    · simp [setA, h]
    · simp [setA, h, ih]

theorem readSub_cons_zero (tail : List Nat) :
    readSub (0 :: tail) = some (none, tail) := rfl

theorem readSub_cons_one (s : String) (tail : List Nat) :
    readSub (1 :: s.length :: (s.data.map Char.toNat ++ tail)) =
      some (some s, tail) := by
  have hlen : (s.data.map Char.toNat).length = s.length := by simp
  have h1 : s.length ≤ (s.data.map Char.toNat ++ tail).length := by
    rw [List.length_append, hlen]
    exact Nat.le_add_right _ _
  show (if s.length ≤ (s.data.map Char.toNat ++ tail).length then
      some (some (String.mk
          (((s.data.map Char.toNat ++ tail).take s.length).map Char.ofNat)),
        (s.data.map Char.toNat ++ tail).drop s.length)
    else none) = some (some s, tail)
  rw [if_pos h1, ← hlen, List.take_left, List.drop_left]
  have h2 : Char.ofNat ∘ Char.toNat = id := funext Char.ofNat_toNat
  simp [List.map_map, h2]

theorem serializeClaims_none (exp : Option Nat) :
    serializeClaims ⟨none, exp⟩ =
      0 :: (match exp with | none => [0] | some e => [1, e]) := rfl

theorem serializeClaims_some (s : String) (exp : Option Nat) :
    serializeClaims ⟨some s, exp⟩ =
      1 :: s.length :: (s.data.map Char.toNat ++
        (match exp with | none => [0] | some e => [1, e])) := by
  simp [serializeClaims]

theorem deserialize_serialize (c : Claims) :
    deserializeClaims (serializeClaims c) = some c := by
  obtain ⟨sub, exp⟩ := c
  have hexp : readExp (match exp with | none => [0] | some e => [1, e]) =
      some exp := by
    cases exp <;> rfl
  cases sub with
  | none =>
    rw [serializeClaims_none]
    simp only [deserializeClaims, readSub_cons_zero, hexp]
  | some s =>
    rw [serializeClaims_some]
    simp only [deserializeClaims, readSub_cons_one, hexp]

theorem jwtDecode_jwtEncode (secret : String) (now : Nat) (c : Claims) :
    jwtDecode secret now (jwtEncode secret c) =
      match c.exp with
      | some e => if e ≤ now then .error .expired else .ok c
      | none => .ok c := by
  simp [jwtDecode, jwtEncode, deserialize_serialize]

theorem hexists_expire (st : RedisState) (k : RKey) (n : Nat) (k' f : RKey) :
    (st.expire k n).hexists k' f = st.hexists k' f := by
  unfold RedisState.expire
  by_cases h : st.keyExists k = true <;> simp [h, RedisState.hexists]

theorem hexists_hset_self (st : RedisState) (k f : RKey) (v : String) :
    (st.hset k f v).hexists k f = true := by
  simp [RedisState.hset, RedisState.hexists, lookupA_setA_self]

theorem is_valid_register (st : RedisState) (d : Nat) (u : String) (t : Token) :
    is_valid_token (register_token st d u t) t = true := by
  unfold is_valid_token register_token
  rw [hexists_expire]
  exact hexists_hset_self _ _ _ _

theorem is_valid_delete (st : RedisState) (t : Token) :
    is_valid_token (delete_token st t) t = false := by
  unfold is_valid_token delete_token RedisState.hdel
  rcases h : lookupA st.hashes (.str "user") with _ | fs
  · simp [RedisState.hexists, h, lookupA]
  · by_cases he : (delA fs (.tok t)).isEmpty
    · simp only [he, if_pos, RedisState.hexists]
      simp [lookupA_delA_self, lookupA]
    · simp only [he, if_neg, Bool.not_eq_true, RedisState.hexists]
      simp [lookupA_setA_self, lookupA_delA_self]

theorem hdel_idem (st : RedisState) (k f : RKey) :
    (st.hdel k f).hdel k f = st.hdel k f := by
  unfold RedisState.hdel
  rcases h : lookupA st.hashes k with _ | fs
  · simp [h]
  · by_cases he : (delA fs f).isEmpty
    · simp only [he, if_pos]
      simp [lookupA_delA_self]
    · simp only [he, if_neg, Bool.not_eq_true]
      simp only [lookupA_setA_self, delA_delA_self, he]
      simp [setA_setA_self]

theorem placeGet_place_id (db : List PlaceRecord) (pid : String)
    (m : PlaceRecord) (h : placeGet db pid = some m) : m.place_id = pid := by
  induction db with
  | nil => simp [placeGet] at h
  | cons r rest ih =>
    by_cases hr : r.place_id = pid
    · simp [placeGet, hr] at h
      subst h
      exact hr
    · simp [placeGet, hr] at h
      exact ih h

theorem placeGet_placeSave (db : List PlaceRecord) (pid : String)
    (m m' : PlaceRecord) (h : placeGet db pid = some m)
    (h' : m'.place_id = pid) :
    placeGet (placeSave db m') pid = some m' := by
  induction db with
  | nil => simp [placeGet] at h
  | cons r rest ih =>
    by_cases hr : r.place_id = pid
    · have hm : m = r := by simp [placeGet, hr] at h; exact h.symm
      simp [placeSave, hr, h', placeGet]
    · have hne : r.place_id ≠ m'.place_id := by
        rw [h']
        exact hr
      simp only [placeGet, hr, if_neg] at h
      simp [placeSave, hne, placeGet, hr, ih h]

theorem get_current_user_ok_iff (secret : String) (now : Nat) (st : RedisState)
    (storeUp : Bool) (db : String → Option DbUser) (tok : Token) (r : DbUser) :
    get_current_user secret now st storeUp db tok = .ok r ↔
      ∃ c uid, jwtDecode secret now tok = .ok c ∧ c.sub = some uid ∧
        storeUp = true ∧ is_valid_token st tok = true ∧ db uid = some r := by
  unfold get_current_user
  cases hd : jwtDecode secret now tok with
  | error e => simp
  | ok c =>
    cases hs : c.sub with
    | none => simp [hs]
    | some uid =>
      cases storeUp with
      | false => simp [hs]
      | true =>
        cases hv : is_valid_token st tok with
        | false => simp [hs, hv]
        | true =>
          cases hdb : db uid with
          | none => simp [hs, hv, hdb]
          | some u => simp [hs, hv, hdb, eq_comm]

theorem gate_ne_ok_of_inactive (secret : String) (now : Nat) (st : RedisState)
    (storeUp : Bool) (db : String → Option DbUser) (tok : Token)
    (hv : is_valid_token st tok = false) (r : DbUser) :
    get_current_user secret now st storeUp db tok ≠ .ok r := by
  intro h
  rcases (get_current_user_ok_iff secret now st storeUp db tok r).mp h with
    ⟨c, uid, _, _, _, hvt, _⟩
  rw [hv] at hvt
  cases hvt

theorem gate_up_ne_storeError (secret : String) (now : Nat) (st : RedisState)
    (db : String → Option DbUser) (tok : Token) :
    get_current_user secret now st true db tok ≠ .storeError := by
  unfold get_current_user
  cases hd : jwtDecode secret now tok with
  | error e => simp
  | ok c =>
    cases hs : c.sub with
    | none => simp [hs]
    | some uid =>
      cases hv : is_valid_token st tok with
      | false => simp [hs, hv]
      | true =>
        cases hdb : db uid with
        | none => simp [hs, hv, hdb]
        | some u => simp [hs, hv, hdb]

theorem convertPlaces_none (ps : List GPlace) (p : GPlace) (hp : p ∈ ps)
    (h : placeConv p = none) : convertPlaces ps = none := by
  induction ps with
  | nil => cases hp
  | cons q rest ih =>
    rcases List.mem_cons.mp hp with hq | hq
    · subst hq
      simp [convertPlaces, h]
    · unfold convertPlaces
      rcases hq1 : placeConv q with _ | x
      · rfl
      · rw [ih hq]

/-! ## Claims -/

/-- Claim C1: `get_current_user` returns the user resolved from the embedded
subject id only when the token decodes (verified signature, unexpired embedded
expiry) AND the token is present in the session store; in particular a token
absent from the store (for example removed by revocation) never validates,
regardless of its signature or embedded expiry. -/
theorem C1_validate_requires_decode_and_store (secret : String) (now : Nat)
    (st : RedisState) (storeUp : Bool) (db : String → Option DbUser)
    (tok : Token) :
    (∀ r, get_current_user secret now st storeUp db tok = .ok r →
      ∃ c uid, jwtDecode secret now tok = .ok c ∧ c.sub = some uid ∧
        is_valid_token st tok = true ∧ db uid = some r) ∧
    (is_valid_token st tok = false →
      ∀ r, get_current_user secret now st storeUp db tok ≠ .ok r) := by
  constructor
  · intro r h
    rcases (get_current_user_ok_iff secret now st storeUp db tok r).mp h with
      ⟨c, uid, hd, hs, _, hv, hdb⟩
    exact ⟨c, uid, hd, hs, hv, hdb⟩
  · intro hv r
    exact gate_ne_ok_of_inactive secret now st storeUp db tok hv r

/-- Claim C1 witness: after removing `tDemo` from the store, validation no
longer yields the user, even though the token still decodes. -/
theorem C1_witness :
    get_current_user "secret-key" 0 (delete_token stDemo tDemo) true dbDemo
      tDemo ≠ .ok ⟨"user-42"⟩ :=
  (C1_validate_requires_decode_and_store "secret-key" 0
    (delete_token stDemo tDemo) true dbDemo tDemo).2 (by decide) ⟨"user-42"⟩

/-- Claim C2 (code bug): `register_token` stores the mapping in the `"user"`
hash but issues `EXPIRE` against the top-level key named by the token, which
does not exist — so no TTL is recorded anywhere and the record survives any
passage of time instead of being evicted when the validity window elapses. -/
theorem C2_record_never_evicted :
    (register_token emptyRedis 5 "user-42" tDemo).ttls = [] ∧
    is_valid_token
      ((register_token emptyRedis 5 "user-42" tDemo).elapse 6) tDemo = true := by
  constructor
  · decide
  · decide

/-- Claim C3 counterexample: a store outage during validation of a decodable
token is NOT collapsed into the uniform unauthenticated outcome — the
exception escapes the handler as a distinct service failure. -/
theorem C3_counterexample :
    authenticate "secret-key" 0 stDemo false dbDemo (some tDemo) =
      .storeError ∧ AuthOutcome.storeError ≠ .unauthenticated := by
  constructor
  · decide
  · decide

/-- Claim C3 (amended): with the store reachable, every failure among
`InvalidToken`, `Expired`, `NotActive`, missing header and `UserNotFound` is
collapsed into the single uniform unauthenticated outcome (the gate yields
either a user or exactly `unauthenticated`); a store outage however is not
collapsed and propagates as a distinct service failure. -/
theorem C3_uniform_unauthenticated (secret : String) (now : Nat)
    (st : RedisState) (db : String → Option DbUser) (hdr : Option Token) :
    ((∃ u, authenticate secret now st true db hdr = .ok u) ∨
      authenticate secret now st true db hdr = .unauthenticated) ∧
    (∀ tok c uid, hdr = some tok → jwtDecode secret now tok = .ok c →
      c.sub = some uid → authenticate secret now st false db hdr =
        .storeError) := by
  constructor
  · cases hdr with
    | none => exact Or.inr rfl
    | some tok =>
      cases ho : authenticate secret now st true db (some tok) with
      | ok u => exact Or.inl ⟨u, rfl⟩
      | unauthenticated => exact Or.inr rfl
      | storeError => exact absurd ho (gate_up_ne_storeError secret now st db tok)
  · intro tok c uid hh hd hs
    subst hh
    show get_current_user secret now st false db tok = .storeError
    unfold get_current_user
    rw [hd]
    simp [hs]

/-- Claim C3 amended witness: the gate collapses a failure to the uniform
unauthenticated outcome with the store up, and surfaces the outage with the
store down. -/
theorem C3_witness :
    ((∃ u, authenticate "secret-key" 0 emptyRedis true dbDemo none = .ok u) ∨
      authenticate "secret-key" 0 emptyRedis true dbDemo none =
        .unauthenticated) ∧
    authenticate "secret-key" 0 stDemo false dbDemo (some tDemo) =
      .storeError :=
  ⟨(C3_uniform_unauthenticated "secret-key" 0 emptyRedis dbDemo none).1,
   (C3_uniform_unauthenticated "secret-key" 0 stDemo dbDemo (some tDemo)).2
     tDemo ⟨some "user-42", some 3600⟩ "user-42" rfl (by rfl) rfl⟩

/-- Claim C4: issuing a token for subject `u` with positive ttl `d`,
registering it, and validating it immediately (with `u` present in the user
directory) succeeds and yields `u`'s record. -/
theorem C4_login_then_validate (secret : String) (now : Nat) (st : RedisState)
    (d : Nat) (u : String) (db : String → Option DbUser) (hd : 0 < d)
    (hdb : db u = some ⟨u⟩) :
    get_current_user secret now
      (register_token st d u (create_access_token ⟨some u, none⟩ d secret now))
      true db (create_access_token ⟨some u, none⟩ d secret now) = .ok ⟨u⟩ := by
  have henc : create_access_token ⟨some u, none⟩ d secret now =
      jwtEncode secret ⟨some u, some (now + d)⟩ := rfl
  have hdec : jwtDecode secret now
      (create_access_token ⟨some u, none⟩ d secret now) =
      .ok ⟨some u, some (now + d)⟩ := by
    rw [henc, jwtDecode_jwtEncode]
    simp only [if_neg (by omega : ¬ now + d ≤ now)]
  unfold get_current_user
  rw [hdec]
  simp [is_valid_register, hdb]

/-- Claim C4 witness: the round trip at a concrete subject and ttl. -/
theorem C4_witness :
    get_current_user "secret-key" 0
      (register_token emptyRedis 3600 "user-42"
        (create_access_token ⟨some "user-42", none⟩ 3600 "secret-key" 0))
      true dbDemo
      (create_access_token ⟨some "user-42", none⟩ 3600 "secret-key" 0) =
      .ok ⟨"user-42"⟩ :=
  C4_login_then_validate "secret-key" 0 emptyRedis 3600 "user-42" dbDemo
    (by decide) (by decide)

/-- Claim C5: a well-formed signed token whose embedded expiry has elapsed
fails validation with the uniform unauthenticated outcome for every store
state — in particular even when its session record is still present — because
the decode step already rejects it as expired. -/
theorem C5_embedded_expiry_enforced (secret : String) (now : Nat)
    (st : RedisState) (storeUp : Bool) (db : String → Option DbUser)
    (c : Claims) (e : Nat) (hc : c.exp = some e) (he : e ≤ now) :
    jwtDecode secret now (jwtEncode secret c) = .error .expired ∧
    get_current_user secret now st storeUp db (jwtEncode secret c) =
      .unauthenticated := by
  have hdec : jwtDecode secret now (jwtEncode secret c) = .error .expired := by
    rw [jwtDecode_jwtEncode, hc]
    simp [he]
  refine ⟨hdec, ?_⟩
  unfold get_current_user
  rw [hdec]

/-- Claim C5 witness: an expired token fails validation although its record
is still registered in the store. -/
theorem C5_witness :
    is_valid_token
      (register_token emptyRedis 3600 "user-42"
        (jwtEncode "secret-key" ⟨some "user-42", some 3⟩))
      (jwtEncode "secret-key" ⟨some "user-42", some 3⟩) = true ∧
    get_current_user "secret-key" 5
      (register_token emptyRedis 3600 "user-42"
        (jwtEncode "secret-key" ⟨some "user-42", some 3⟩))
      true dbDemo (jwtEncode "secret-key" ⟨some "user-42", some 3⟩) =
      .unauthenticated :=
  ⟨by decide,
   (C5_embedded_expiry_enforced "secret-key" 5
     (register_token emptyRedis 3600 "user-42"
       (jwtEncode "secret-key" ⟨some "user-42", some 3⟩))
     true dbDemo ⟨some "user-42", some 3⟩ 3 rfl (by decide)).2⟩

/-- Claim C6: after `delete_token`, the token is no longer active, validation
of it can no longer yield a user, and a second `delete_token` is a no-op
(removing an absent mapping changes nothing and raises no error — `HDEL` on
an absent field is not an error in the store). -/
theorem C6_logout_revokes_and_is_idempotent (secret : String) (now : Nat)
    (st : RedisState) (db : String → Option DbUser) (t : Token) :
    is_valid_token (delete_token st t) t = false ∧
    (∀ r, get_current_user secret now (delete_token st t) true db t ≠ .ok r) ∧
    delete_token (delete_token st t) t = delete_token st t := by
  refine ⟨is_valid_delete st t, ?_, hdel_idem st _ _⟩
  intro r
  exact gate_ne_ok_of_inactive secret now (delete_token st t) true db t
    (is_valid_delete st t) r

/-- Claim C6 witness: logout of the registered demo token at concrete
inputs. -/
theorem C6_witness :
    is_valid_token (delete_token stDemo tDemo) tDemo = false ∧
    delete_token (delete_token stDemo tDemo) tDemo =
      delete_token stDemo tDemo ∧
    get_current_user "secret-key" 0 (delete_token stDemo tDemo) true dbDemo
      tDemo ≠ .ok ⟨"user-42"⟩ :=
  ⟨(C6_logout_revokes_and_is_idempotent "secret-key" 0 stDemo dbDemo tDemo).1,
   (C6_logout_revokes_and_is_idempotent "secret-key" 0 stDemo dbDemo
     tDemo).2.2,
   (C6_logout_revokes_and_is_idempotent "secret-key" 0 stDemo dbDemo
     tDemo).2.1 ⟨"user-42"⟩⟩

/-- Claim C7: the token codec fails with `InvalidToken` when the signature
does not verify or the payload is structurally malformed — in particular for
any token obtained by flipping one payload byte of a genuinely issued token —
and fails with `Expired` when the embedded expiry is not in the future; the
codec is a pure function of secret, time and token by construction. -/
theorem C7_decode_error_taxonomy (secret : String) (now : Nat) :
    (∀ (payload : List Nat) (sig : String × List Nat),
      sig ≠ mkSig secret payload →
      jwtDecode secret now ⟨payload, sig⟩ = .error .invalidToken) ∧
    (∀ (payload : List Nat) (sig : String × List Nat),
      deserializeClaims payload = none →
      jwtDecode secret now ⟨payload, sig⟩ = .error .invalidToken) ∧
    (∀ (c : Claims) (i v : Nat), i < (serializeClaims c).length →
      (serializeClaims c)[i]? ≠ some v →
      jwtDecode secret now
        ⟨(serializeClaims c).set i v, mkSig secret (serializeClaims c)⟩ =
        .error .invalidToken) ∧
    (∀ (c : Claims) (e : Nat), c.exp = some e → e ≤ now →
      jwtDecode secret now (jwtEncode secret c) = .error .expired) := by
  refine ⟨?_, ?_, ?_, ?_⟩
  · intro payload sig hs
    simp [jwtDecode, hs]
  · intro payload sig hm
    by_cases hs : sig = mkSig secret payload
    · simp [jwtDecode, hs, hm]
    · simp [jwtDecode, hs]
  · intro c i v hi hv
    have hne : serializeClaims c ≠ (serializeClaims c).set i v := by
      intro he
      apply hv
      have h3 : ((serializeClaims c).set i v)[i]? = some v := by
        simp [List.getElem?_set_self, hi]
      rw [← he] at h3
      exact h3
    simp [jwtDecode, mkSig, hne]
  · intro c e hc he
    rw [jwtDecode_jwtEncode, hc]
    simp [he]

/-- Claim C7 witness: a wrong tag, a malformed payload, a one-byte flip of an
issued token, and an expired token, each at concrete inputs. -/
theorem C7_witness :
    jwtDecode "secret-key" 0 ⟨[0, 0], ("other", [0, 0])⟩ =
      .error .invalidToken ∧
    jwtDecode "secret-key" 0 ⟨[7], mkSig "secret-key" [7]⟩ =
      .error .invalidToken ∧
    jwtDecode "secret-key" 0
      ⟨(serializeClaims ⟨some "u", some 9⟩).set 2 118,
        mkSig "secret-key" (serializeClaims ⟨some "u", some 9⟩)⟩ =
      .error .invalidToken ∧
    jwtDecode "secret-key" 5 (jwtEncode "secret-key" ⟨some "u", some 3⟩) =
      .error .expired :=
  ⟨(C7_decode_error_taxonomy "secret-key" 0).1 [0, 0] ("other", [0, 0])
     (by decide),
   (C7_decode_error_taxonomy "secret-key" 0).2.1 [7]
     (mkSig "secret-key" [7]) (by decide),
   (C7_decode_error_taxonomy "secret-key" 0).2.2.1 ⟨some "u", some 9⟩ 2 118
     (by decide) (by decide),
   (C7_decode_error_taxonomy "secret-key" 5).2.2.2 ⟨some "u", some 3⟩ 3 rfl
     (by decide)⟩

/-- Claim C8: `survey_place` leaves the place database unchanged on both
error paths — 404 without creating a record when the place is absent, 400
without saving when the survey type is neither `"safe_rating"` nor
`"sleep_available"` — and more generally any non-200 outcome leaves the
database as it was. -/
theorem C8_error_paths_leave_db_unchanged (db : List PlaceRecord)
    (pid : String) (sv : PlaceSurvey) :
    (placeGet db pid = none → survey_place db pid sv = (.notFound, db)) ∧
    (∀ m, placeGet db pid = some m → sv.survey_type ≠ "safe_rating" →
      sv.survey_type ≠ "sleep_available" →
      survey_place db pid sv = (.invalidType, db)) ∧
    ((survey_place db pid sv).1 ≠ .ok → (survey_place db pid sv).2 = db) := by
  refine ⟨?_, ?_, ?_⟩
  · intro h
    simp [survey_place, h]
  · intro m hm h1 h2
    simp [survey_place, hm, h1, h2]
  · intro h
    unfold survey_place at *
    cases hm : placeGet db pid with
    | none => simp
    | some m =>
      rw [hm] at h
      by_cases h1 : sv.survey_type = "safe_rating"
      · simp [h1] at h
      · by_cases h2 : sv.survey_type = "sleep_available"
        · simp [h1, h2] at h
        · simp [h1, h2]

/-- Claim C8 witness: the 404 path on an empty database and the 400 path on a
populated one, both returning the database untouched. -/
theorem C8_witness :
    survey_place [] "pl-1" ⟨"bogus", 1⟩ = (.notFound, []) ∧
    survey_place [⟨"pl-1", "Cafe", 3, 0⟩] "pl-1" ⟨"bogus", 1⟩ =
      (.invalidType, [⟨"pl-1", "Cafe", 3, 0⟩]) :=
  ⟨(C8_error_paths_leave_db_unchanged [] "pl-1" ⟨"bogus", 1⟩).1 rfl,
   (C8_error_paths_leave_db_unchanged [⟨"pl-1", "Cafe", 3, 0⟩] "pl-1"
     ⟨"bogus", 1⟩).2.1 ⟨"pl-1", "Cafe", 3, 0⟩ rfl (by decide) (by decide)⟩

/-- Claim C9: the place-type mapping of `scan` is partial — whenever some
returned place's effective type key (its `primaryType`, or the first entry of
`types` when `primaryType` is not truthy) lies outside the four-entry dict,
the whole conversion aborts with the unhandled lookup error instead of
producing a response — and the dict is total exactly over `"hospital"`,
`"subway_station"`, `"school"` and `"doctor"`. -/
theorem C9_scan_type_mapping_domain :
    (∀ (ps : List GPlace) (p : GPlace) (k : String), p ∈ ps →
      effectiveKey p = some k → dictGet match_place_types k = none →
      convertPlaces ps = none) ∧
    (∀ k : String, (dictGet match_place_types k).isSome = true ↔
      k = "hospital" ∨ k = "subway_station" ∨ k = "school" ∨ k = "doctor") := by
  constructor
  · intro ps p k hp hk hd
    apply convertPlaces_none ps p hp
    simp [placeConv, hk, hd]
  · intro k
    constructor
    · intro h
      by_contra hq
      push_neg at hq
      obtain ⟨h1, h2, h3, h4⟩ := hq
      simp [dictGet, match_place_types, Ne.symm h1, Ne.symm h2, Ne.symm h3,
        Ne.symm h4] at h
    · intro h
      rcases h with h | h | h | h <;> subst h <;> decide

/-- Claim C9 witness: a `"restaurant"` place aborts the conversion, while
`"doctor"` is in the dict's domain. -/
theorem C9_witness :
    convertPlaces [pDemo] = none ∧
    (dictGet match_place_types "doctor").isSome = true :=
  ⟨C9_scan_type_mapping_domain.1 [pDemo] pDemo "restaurant" (by simp)
     rfl rfl,
   (C9_scan_type_mapping_domain.2 "doctor").mpr (by simp)⟩

/-- Claim C10: on an existing place, a `"safe_rating"` survey adds the survey
value to `safe_rating` and changes no other field of the record, and a
`"sleep_available"` survey overwrites `sleep_available` and changes no other
field (the saved record is the fetched one updated in exactly that field). -/
theorem C10_survey_frame_effect (db : List PlaceRecord) (pid : String)
    (sv : PlaceSurvey) (m : PlaceRecord) (hm : placeGet db pid = some m) :
    (sv.survey_type = "safe_rating" →
      survey_place db pid sv =
        (.ok, placeSave db
          { m with safe_rating := m.safe_rating + sv.survey_value }) ∧
      placeGet (survey_place db pid sv).2 pid =
        some { m with safe_rating := m.safe_rating + sv.survey_value }) ∧
    (sv.survey_type = "sleep_available" →
      survey_place db pid sv =
        (.ok, placeSave db { m with sleep_available := sv.survey_value }) ∧
      placeGet (survey_place db pid sv).2 pid =
        some { m with sleep_available := sv.survey_value }) := by
  have hpid := placeGet_place_id db pid m hm
  constructor
  · intro ht
    have h1 : survey_place db pid sv =
        (.ok, placeSave db
          { m with safe_rating := m.safe_rating + sv.survey_value }) := by
      simp [survey_place, hm, ht]
    refine ⟨h1, ?_⟩
    rw [h1]
    exact placeGet_placeSave db pid m _ hm hpid
  · intro ht
    have hne : sv.survey_type ≠ "safe_rating" := by
      rw [ht]
      decide
    have h1 : survey_place db pid sv =
        (.ok, placeSave db { m with sleep_available := sv.survey_value }) := by
      simp [survey_place, hm, hne, ht]
    refine ⟨h1, ?_⟩
    rw [h1]
    exact placeGet_placeSave db pid m _ hm hpid

/-- Claim C10 witness: both survey types applied to a concrete record. -/
theorem C10_witness :
    survey_place [⟨"pl-1", "Cafe", 3, 0⟩] "pl-1" ⟨"safe_rating", 2⟩ =
      (.ok, [⟨"pl-1", "Cafe", 5, 0⟩]) ∧
    survey_place [⟨"pl-1", "Cafe", 3, 0⟩] "pl-1" ⟨"sleep_available", 1⟩ =
      (.ok, [⟨"pl-1", "Cafe", 3, 1⟩]) :=
  ⟨((C10_survey_frame_effect [⟨"pl-1", "Cafe", 3, 0⟩] "pl-1"
      ⟨"safe_rating", 2⟩ ⟨"pl-1", "Cafe", 3, 0⟩ rfl).1 rfl).1,
   ((C10_survey_frame_effect [⟨"pl-1", "Cafe", 3, 0⟩] "pl-1"
      ⟨"sleep_available", 1⟩ ⟨"pl-1", "Cafe", 3, 0⟩ rfl).2 rfl).1⟩

end Statul
